import Mathlib

/-!
Shallow embedding of the rendy command-buffer typestate machine
(src/command/src/buffer.rs) and the image resource wrapper
(src/resource/src/image/mod.rs).

The Rust code encodes the buffer lifecycle at the type level: the
`Buffer<B, C, S, L, R>` wrapper carries its lifecycle state `S`, level `L`
and reset-granularity tag `R` as type parameters, and each operation is
offered only by the impl block whose header matches the current tags.
We embed the tags as data (inductive types below) and each operation as an
Option-valued function whose guard is exactly the impl header: the
operation is offered (returns some) precisely when the Rust impl applies.
Method bodies in the excerpt are unimplemented!(); the resulting state,
level and reset tags are fully determined by the impl signatures, which is
what the embedding follows.  Value-level passthrough of the remaining
fields (inner handle, family id, leak sentinel) follows the move semantics
the spec describes in its data-model section.
-/

/-- Modelled from the spec: family::FamilyId (module not in the excerpt),
the owning queue-family identifier a buffer is tied to. -/
structure FamilyId where
  id : Nat
deriving DecidableEq, Repr

/-- Modelled from the spec: relevant::Relevant (external crate), the
non-duplicable leak sentinel embedded in every handle-owning value. -/
inductive Relevant
  | relevant
deriving DecidableEq, Repr

/-- Command buffer levels: PrimaryLevel and SecondaryLevel structs of
src/command/src/buffer.rs, lines 11-17. -/
inductive Level
  | primaryLevel
  | secondaryLevel
deriving DecidableEq, Repr

/-- The reset-granularity tag: the R type parameter of Buffer, which the
source defaults to the unit type and which IndividualReset
(src/command/src/buffer.rs line 22) can replace. -/
inductive ResetTag
  | unit
  | individualReset
deriving DecidableEq, Repr

/-- The S parameter of MultiShot: the source defaults it to the unit type,
and SimultaneousUse (src/command/src/buffer.rs line 74) can replace it. -/
inductive Simultaneity
  | unit
  | simultaneousUse
deriving DecidableEq, Repr

/-- The usage types implementing the Usage trait: OneShot, MultiShot and
MultiShot with SimultaneousUse (src/command/src/buffer.rs lines 64-74,
impls at lines 107-123). -/
inductive Usage
  | oneShot
  | multiShot (s : Simultaneity)
deriving DecidableEq, Repr

/-- The lifecycle state structs of src/command/src/buffer.rs lines 24-47:
InitialState, RecordingState of U, ExecutableState of U, PendingState of N
(N a further state), InvalidState. -/
inductive State
  | initialState
  | recordingState (u : Usage)
  | executableState (u : Usage)
  | pendingState (n : State)
  | invalidState
deriving DecidableEq, Repr

/-- UsageFlags bitmask of src/command/src/buffer.rs lines 80-98, embedded
as a natural-number bitmask. -/
def UsageFlags.ONE_TIME_SUBMIT : Nat := 0x00000001

/-- RENDER_PASS_CONTINUE bit of the UsageFlags bitmask. -/
def UsageFlags.RENDER_PASS_CONTINUE : Nat := 0x00000002

/-- SIMULTANEOUS_USE bit of the UsageFlags bitmask. -/
def UsageFlags.SIMULTANEOUS_USE : Nat := 0x00000004

/-- The empty UsageFlags bitmask. -/
def UsageFlags.empty : Nat := 0

/-- The flags method of the Usage trait, combining the three impls at
src/command/src/buffer.rs lines 107-123: OneShot yields ONE_TIME_SUBMIT,
MultiShot yields the empty set, MultiShot with SimultaneousUse yields
SIMULTANEOUS_USE. -/
def Usage.flags : Usage → Nat
  | .oneShot => UsageFlags.ONE_TIME_SUBMIT
  | .multiShot .unit => UsageFlags.empty
  | .multiShot .simultaneousUse => UsageFlags.SIMULTANEOUS_USE

/-- The Droppable trait (src/command/src/buffer.rs lines 49-54): impls
exist exactly for InitialState, RecordingState of U, ExecutableState of U
and InvalidState. -/
def Droppable : State → Bool
  | .initialState => true
  | .recordingState _ => true
  | .executableState _ => true
  | .invalidState => true
  | .pendingState _ => false

/-- The Resettable trait (src/command/src/buffer.rs lines 56-60): impls
exist exactly for RecordingState of U, ExecutableState of U and
InvalidState. -/
def Resettable : State → Bool
  | .initialState => false
  | .recordingState _ => true
  | .executableState _ => true
  | .invalidState => true
  | .pendingState _ => false

/-- Modelled from the spec: the CommandBuffer trait of the device module
(not in the excerpt); a backend buffer handle exposing a submit operation
that produces an opaque backend submission payload. -/
class CommandBuffer (B : Type) where
  Submit : Type
  submit : B → Submit

/-- The Buffer wrapper of src/command/src/buffer.rs lines 129-137, with
the type-level tags S, L, R embedded as data fields.  The resetFlag field
embeds the R parameter (named reset in the source; renamed because the
reset operation keeps its source name). -/
structure Buffer (B C : Type) where
  inner : B
  capability : C
  state : State
  level : Level
  resetFlag : ResetTag
  family : FamilyId
  relevant : Relevant

/-- The Submit structure of src/command/src/buffer.rs lines 155-158:
raw backend payload plus the owning queue family. -/
structure Submit (S : Type) where
  raw : S
  family : FamilyId

/-- Submit::into_inner (src/command/src/buffer.rs lines 167-169):
unwrap the inner submit value. -/
def Submit.into_inner {S : Type} (s : Submit S) : S := s.raw

/-- Buffer::begin (src/command/src/buffer.rs lines 139-151).  The impl
header requires InitialState and PrimaryLevel, any reset tag; the result
type is RecordingState of the usage at PrimaryLevel with the same tags.
The body is unimplemented!(); field passthrough is modelled from the
spec's move semantics. -/
def Buffer.begin {B C : Type} (b : Buffer B C) (usage : Usage) :
    Option (Buffer B C) :=
  match b.state, b.level with
  | .initialState, .primaryLevel =>
    some { b with state := .recordingState usage }
  | _, _ => none

/-- Buffer::submit_once (src/command/src/buffer.rs lines 172-185).  The
impl header requires ExecutableState of OneShot and PrimaryLevel, any
reset tag; the result type pairs a Submit of the backend payload with the
buffer in PendingState of InvalidState.  The body is unimplemented!();
the Submit payload and family are modelled from the spec (the token
carries the producing buffer's family). -/
def Buffer.submit_once {B C : Type} [CommandBuffer B] (b : Buffer B C) :
    Option (Submit (CommandBuffer.Submit B) × Buffer B C) :=
  match b.state, b.level with
  | .executableState .oneShot, .primaryLevel =>
    some (⟨CommandBuffer.submit b.inner, b.family⟩,
      { b with state := .pendingState .invalidState })
  | _, _ => none

/-- Buffer::submit (src/command/src/buffer.rs lines 187-200).  The impl
header requires ExecutableState of MultiShot of S and PrimaryLevel, any
reset tag; the result type pairs a Submit with the buffer in PendingState
of ExecutableState of MultiShot of S.  The body is unimplemented!(); the
Submit payload and family are modelled from the spec. -/
def Buffer.submit {B C : Type} [CommandBuffer B] (b : Buffer B C) :
    Option (Submit (CommandBuffer.Submit B) × Buffer B C) :=
  match b.state, b.level with
  | .executableState (.multiShot s), .primaryLevel =>
    some (⟨CommandBuffer.submit b.inner, b.family⟩,
      { b with state := .pendingState (.executableState (.multiShot s)) })
  | _, _ => none

/-- Buffer::complete (src/command/src/buffer.rs lines 202-211), the
caller-asserted operation.  The impl header requires PendingState of N at
any level and any reset tag; the result type is the buffer at state N. -/
def Buffer.complete {B C : Type} (b : Buffer B C) : Option (Buffer B C) :=
  match b.state with
  | .pendingState n => some { b with state := n }
  | _ => none

/-- Buffer::reset (src/command/src/buffer.rs lines 213-221).  The impl
header requires the IndividualReset tag and a Resettable state, any
level; the result type is InitialState with IndividualReset kept. -/
def Buffer.reset {B C : Type} (b : Buffer B C) : Option (Buffer B C) :=
  match b.resetFlag, Resettable b.state with
  | .individualReset, true => some { b with state := .initialState }
  | _, _ => none

/-- Buffer::mark_reset (src/command/src/buffer.rs lines 223-236), the
caller-asserted operation.  The impl header is on Buffer of B, C, S, L
with the reset parameter left at its default, the unit type, and requires
a Resettable state; the result type is InitialState with the default
tag. -/
def Buffer.mark_reset {B C : Type} (b : Buffer B C) : Option (Buffer B C) :=
  match b.resetFlag, Resettable b.state with
  | .unit, true => some { b with state := .initialState }
  | _, _ => none

/-- Modelled from the spec: frame::FrameBound (module not in the
excerpt), associating a value with an opaque frame token. -/
structure FrameBound (F B : Type) where
  inner : B
  frame : F

/-- Modelled from the spec: FrameBound::bind, wrapping a value with a
frame token. -/
def FrameBound.bind {F B : Type} (inner : B) (frame : F) :
    FrameBound F B :=
  ⟨inner, frame⟩

/-- Modelled from the spec: FrameBound::inner_ref, access to the wrapped
value. -/
def FrameBound.inner_ref {F B : Type} (fb : FrameBound F B) : B := fb.inner

/-- The CommandBuffer impl for FrameBound (src/command/src/buffer.rs
lines 249-259): the submission payload of a frame-bound buffer is the
inner buffer's payload bound to the same frame token. -/
instance {F B : Type} [CommandBuffer B] : CommandBuffer (FrameBound F B) where
  Submit := FrameBound F (CommandBuffer.Submit B)
  submit fb := FrameBound.bind (CommandBuffer.submit fb.inner_ref) fb.frame

/-- Image dimensionality (src/resource/src/image/mod.rs lines 16-26). -/
inductive Kind
  | D1
  | D2
  | D3
deriving DecidableEq, Repr

/-- Image size (src/resource/src/image/mod.rs lines 29-37). -/
structure Extent3D where
  width : Nat
  height : Nat
  depth : Nat
deriving DecidableEq, Repr

/-- SampleCountFlags bitmask (src/resource/src/image/mod.rs lines 39-60),
embedded as a natural-number bitmask. -/
def SampleCountFlags.SAMPLE_COUNT_1 : Nat := 0x00000001

/-- The two-samples-per-pixel bit of SampleCountFlags. -/
def SampleCountFlags.SAMPLE_COUNT_2 : Nat := 0x00000002

/-- The four-samples-per-pixel bit of SampleCountFlags. -/
def SampleCountFlags.SAMPLE_COUNT_4 : Nat := 0x00000004

/-- Image tiling type (src/resource/src/image/mod.rs lines 63-70). -/
inductive ImageTiling
  | Optimal
  | Linear
deriving DecidableEq, Repr

/-- ImageCreateFlags bitmask (src/resource/src/image/mod.rs lines
130-143), embedded as a natural-number bitmask. -/
def ImageCreateFlags.IMAGE_CREATE_MUTABLE_FORMAT : Nat := 0x00000008

/-- The cube-compatible bit of ImageCreateFlags. -/
def ImageCreateFlags.IMAGE_CREATE_CUBE_COMPATIBLE : Nat := 0x00000010

/-- The 2D-array-compatible bit of ImageCreateFlags. -/
def ImageCreateFlags.IMAGE_CREATE_2D_ARRAY_COMPATIBLE : Nat := 0x00000020

/-- Modelled from the spec: the Format enumeration of the image format
module (not in the excerpt); an opaque pixel-format code. -/
structure Format where
  code : Nat
deriving DecidableEq, Repr

/-- Modelled from the spec: the image UsageFlags bitmask of the image
usage module (not in the excerpt); renamed to avoid the clash with the
command-buffer UsageFlags. -/
structure ImageUsageFlags where
  bits : Nat
deriving DecidableEq, Repr

/-- Modelled from the spec: the SharingMode of the resource crate root
(not in the excerpt); the queue-sharing mode of an image. -/
inductive SharingMode
  | exclusive
  | concurrent
deriving DecidableEq, Repr

/-- CreateInfo (src/resource/src/image/mod.rs lines 146-177). -/
structure CreateInfo where
  kind : Kind
  format : Format
  extent : Extent3D
  mips : Nat
  array : Nat
  samples : Nat
  tiling : ImageTiling
  usage : ImageUsageFlags
  sharing : SharingMode
  flags : Nat

/-- Modelled from the spec: memory::MemoryBlock (module not in the
excerpt); an opaque owned handle to a device memory allocation over a
memory object of type M. -/
structure MemoryBlock (M : Type) where
  memory : M

/-- Modelled from the spec: escape::Escape (module not in the excerpt);
the deferred-reclamation wrapper holding its value until it is posted to
the reclamation channel. -/
structure Escape (T : Type) where
  value : T

/-- The Inner structure of src/resource/src/image/mod.rs lines 191-196:
memory block, raw image handle, leak sentinel (named under Image because
the bare name clashes with an unrelated Mathlib class). -/
structure Image.Inner (M I : Type) where
  block : MemoryBlock M
  raw : I
  relevant : Relevant

/-- The Image wrapper of src/resource/src/image/mod.rs lines 185-189:
an Escape-wrapped Inner plus the CreateInfo. -/
structure Image (M I : Type) where
  inner : Escape (Image.Inner M I)
  info : CreateInfo

/-- A trivial backend handle used by the concrete witnesses. -/
instance : CommandBuffer Unit where
  Submit := Unit
  submit _ := ()

/-- A concrete buffer in ExecutableState of OneShot at PrimaryLevel,
used by the witnesses. -/
def execOneShotBuffer : Buffer Unit Unit :=
  { inner := (), capability := (), state := .executableState .oneShot,
    level := .primaryLevel, resetFlag := .unit, family := ⟨3⟩,
    relevant := .relevant }

/-- A concrete buffer in ExecutableState of MultiShot at PrimaryLevel,
used by the witnesses. -/
def execMultiShotBuffer : Buffer Unit Unit :=
  { inner := (), capability := (), state := .executableState (.multiShot .unit),
    level := .primaryLevel, resetFlag := .individualReset, family := ⟨5⟩,
    relevant := .relevant }

/-- A concrete buffer in the Pending state a first submit of a MultiShot
of SimultaneousUse buffer produces, used by the witnesses and the
counterexample of the resubmission claim. -/
def pendingSimultaneousBuffer : Buffer Unit Unit :=
  { inner := (), capability := (),
    state := .pendingState (.executableState (.multiShot .simultaneousUse)),
    level := .primaryLevel, resetFlag := .unit, family := ⟨7⟩,
    relevant := .relevant }

/-- A concrete buffer in InvalidState carrying the IndividualReset tag,
used by the counterexample of the mark_reset claim. -/
def invalidIndividualBuffer : Buffer Unit Unit :=
  { inner := (), capability := (), state := .invalidState,
    level := .primaryLevel, resetFlag := .individualReset, family := ⟨2⟩,
    relevant := .relevant }

/-- A concrete buffer in InitialState at PrimaryLevel, used by the
witnesses of the begin claim. -/
def initialPrimaryBuffer : Buffer Unit Unit :=
  { inner := (), capability := (), state := .initialState,
    level := .primaryLevel, resetFlag := .unit, family := ⟨4⟩,
    relevant := .relevant }

/-- A concrete image built from the create-info the spec's test scenario
names, used by the sentinel-preservation witness. -/
def sampleImage : Image Unit Unit :=
  { inner := ⟨⟨⟨()⟩, (), .relevant⟩⟩,
    info :=
      { kind := .D2, format := ⟨34⟩, extent := ⟨256, 256, 1⟩, mips := 1,
        array := 1, samples := SampleCountFlags.SAMPLE_COUNT_1,
        tiling := .Optimal, usage := ⟨0⟩, sharing := .exclusive,
        flags := 0 } }

/-- C1: submitting an Executable buffer and then unsafely completing it
returns it to the state the usage-policy table predicts: submit_once on
ExecutableState of OneShot followed by complete yields InvalidState, never
an ExecutableState; submit on ExecutableState of MultiShot of S followed
by complete yields ExecutableState of MultiShot of S for S the unit type
and S SimultaneousUse alike. -/
theorem c1_submit_complete_roundtrip {B C : Type} [CommandBuffer B]
    (b : Buffer B C) (hl : b.level = .primaryLevel) :
    (b.state = .executableState .oneShot →
      ((b.submit_once.map Prod.snd).bind Buffer.complete).map Buffer.state =
        some State.invalidState ∧
      ∀ u, ((b.submit_once.map Prod.snd).bind Buffer.complete).map
        Buffer.state ≠ some (State.executableState u)) ∧
    (∀ s, b.state = .executableState (.multiShot s) →
      ((b.submit.map Prod.snd).bind Buffer.complete).map Buffer.state =
        some (State.executableState (.multiShot s))) := by
  constructor
  · intro hs
    constructor
    · simp [Buffer.submit_once, Buffer.complete, hs, hl]
    · intro u
      simp [Buffer.submit_once, Buffer.complete, hs, hl]
  · intro s hs
    simp [Buffer.submit, Buffer.complete, hs, hl]

/-- Witness for the round-trip claim at concrete OneShot and MultiShot
buffers. -/
theorem c1_submit_complete_roundtrip_witness :
    ((execOneShotBuffer.submit_once.map Prod.snd).bind
      Buffer.complete).map Buffer.state = some State.invalidState ∧
    ((execMultiShotBuffer.submit.map Prod.snd).bind
      Buffer.complete).map Buffer.state =
      some (State.executableState (.multiShot .unit)) :=
  ⟨((c1_submit_complete_roundtrip execOneShotBuffer rfl).1 rfl).1,
   (c1_submit_complete_roundtrip execMultiShotBuffer rfl).2 .unit rfl⟩

/-- C2: a Pending buffer is never droppable and never resettable, and of
the operations the public interface offers only the caller-asserted
complete applies to it; across all states Droppable holds exactly for
InitialState, RecordingState, ExecutableState and InvalidState, and
Resettable exactly for RecordingState, ExecutableState and
InvalidState. -/
theorem c2_pending_not_droppable_not_resettable {B C : Type}
    [CommandBuffer B] (b : Buffer B C) (n : State)
    (hp : b.state = .pendingState n) :
    Droppable b.state = false ∧ Resettable b.state = false ∧
    (∀ u, b.begin u = none) ∧ b.submit_once = none ∧ b.submit = none ∧
    b.reset = none ∧ b.mark_reset = none ∧
    b.complete = some { b with state := n } ∧
    (∀ s : State, Droppable s = true ↔
      s = .initialState ∨ (∃ u, s = .recordingState u) ∨
      (∃ u, s = .executableState u) ∨ s = .invalidState) ∧
    (∀ s : State, Resettable s = true ↔
      (∃ u, s = .recordingState u) ∨ (∃ u, s = .executableState u) ∨
      s = .invalidState) := by
  refine ⟨?_, ?_, ?_, ?_, ?_, ?_, ?_, ?_, ?_, ?_⟩
  · rw [hp]; rfl
  · rw [hp]; rfl
  · intro u; simp [Buffer.begin, hp]
  · simp [Buffer.submit_once, hp]
  · simp [Buffer.submit, hp]
  · simp [Buffer.reset, Resettable, hp]
  · simp [Buffer.mark_reset, Resettable, hp]
  · simp [Buffer.complete, hp]
  · intro s; cases s <;> simp [Droppable]
  · intro s; cases s <;> simp [Resettable]

/-- Witness for the Pending-protection claim at a concrete Pending
buffer. -/
theorem c2_pending_not_droppable_not_resettable_witness :
    Droppable pendingSimultaneousBuffer.state = false ∧
    Resettable pendingSimultaneousBuffer.state = false ∧
    pendingSimultaneousBuffer.reset = none ∧
    pendingSimultaneousBuffer.mark_reset = none :=
  ⟨(c2_pending_not_droppable_not_resettable pendingSimultaneousBuffer _
      rfl).1,
   (c2_pending_not_droppable_not_resettable pendingSimultaneousBuffer _
      rfl).2.1,
   (c2_pending_not_droppable_not_resettable pendingSimultaneousBuffer _
      rfl).2.2.2.2.2.1,
   (c2_pending_not_droppable_not_resettable pendingSimultaneousBuffer _
      rfl).2.2.2.2.2.2.1⟩

/-- C3 counterexample: a concrete buffer built with MultiShot of
SimultaneousUse sitting in the Pending state its first submit produces;
neither submit nor submit_once is offered on it, so no second submit is
reachable while the buffer is still Pending. -/
theorem c3_pending_resubmit_counterexample :
    pendingSimultaneousBuffer.state =
      State.pendingState
        (.executableState (.multiShot .simultaneousUse)) ∧
    pendingSimultaneousBuffer.submit = none ∧
    pendingSimultaneousBuffer.submit_once = none :=
  ⟨rfl, rfl, rfl⟩

/-- C3 amended: for every buffer in a Pending state, whether built with
MultiShot of SimultaneousUse or with plain MultiShot, no submit operation
is offered; resubmission always requires the caller-asserted complete
back to an Executable state first. -/
theorem c3_no_submit_while_pending {B C : Type} [CommandBuffer B]
    (b : Buffer B C) (n : State) (hp : b.state = .pendingState n) :
    b.submit = none ∧ b.submit_once = none := by
  constructor
  · simp [Buffer.submit, hp]
  · simp [Buffer.submit_once, hp]

/-- Witness for the no-submit-while-Pending theorem at the concrete
Pending SimultaneousUse buffer. -/
theorem c3_no_submit_while_pending_witness :
    pendingSimultaneousBuffer.submit = none ∧
    pendingSimultaneousBuffer.submit_once = none :=
  c3_no_submit_while_pending pendingSimultaneousBuffer
    (.executableState (.multiShot .simultaneousUse)) rfl

/-- C4 counterexample: a concrete buffer in a Resettable state carrying
the IndividualReset granularity tag on which mark_reset is not offered,
refuting availability on every granularity tag. -/
theorem c4_mark_reset_counterexample :
    Resettable invalidIndividualBuffer.state = true ∧
    invalidIndividualBuffer.resetFlag = ResetTag.individualReset ∧
    invalidIndividualBuffer.mark_reset = none :=
  ⟨rfl, rfl, rfl⟩

/-- C4 amended: the caller-asserted mark_reset is offered exactly on
buffers whose reset-granularity tag is the default pool-reset tag (the
unit type) and whose state is Resettable, and it transitions the buffer
to InitialState with that default tag kept. -/
theorem c4_mark_reset_default_tag {B C : Type} (b : Buffer B C) :
    (b.mark_reset.isSome = true ↔
      b.resetFlag = ResetTag.unit ∧ Resettable b.state = true) ∧
    (∀ b', b.mark_reset = some b' →
      b'.state = State.initialState ∧ b'.resetFlag = ResetTag.unit) := by
  constructor
  · cases hf : b.resetFlag <;> cases hR : Resettable b.state <;>
      simp [Buffer.mark_reset, hf, hR]
  · intro b' h
    cases hf : b.resetFlag <;> cases hR : Resettable b.state <;>
      simp [Buffer.mark_reset, hf, hR] at h
    subst h
    exact ⟨rfl, rfl⟩

/-- Witness for the amended mark_reset theorem at a concrete buffer with
the default tag in an Executable state. -/
theorem c4_mark_reset_default_tag_witness :
    execOneShotBuffer.mark_reset.isSome = true ∧
    ({ execOneShotBuffer with state := State.initialState }).state =
      State.initialState ∧
    ({ execOneShotBuffer with state := State.initialState }).resetFlag =
      ResetTag.unit :=
  ⟨(c4_mark_reset_default_tag execOneShotBuffer).1.mpr ⟨rfl, rfl⟩,
   ((c4_mark_reset_default_tag execOneShotBuffer).2 _ rfl).1,
   ((c4_mark_reset_default_tag execOneShotBuffer).2 _ rfl).2⟩

/-- C5: the safe reset is offered exactly on buffers whose
reset-granularity tag is IndividualReset and whose state is a
RecordingState, an ExecutableState or InvalidState (not InitialState and
not a PendingState), and it always yields InitialState with the
IndividualReset tag preserved. -/
theorem c5_reset_individual_resettable {B C : Type} (b : Buffer B C) :
    (b.reset.isSome = true ↔
      b.resetFlag = ResetTag.individualReset ∧
      ((∃ u, b.state = .recordingState u) ∨
        (∃ u, b.state = .executableState u) ∨
        b.state = .invalidState)) ∧
    (∀ b', b.reset = some b' →
      b'.state = State.initialState ∧
      b'.resetFlag = ResetTag.individualReset) := by
  constructor
  · cases hf : b.resetFlag <;> cases hs : b.state <;>
      simp [Buffer.reset, Resettable, hf, hs]
  · intro b' h
    cases hf : b.resetFlag <;> cases hR : Resettable b.state <;>
      simp [Buffer.reset, hf, hR] at h
    subst h
    exact ⟨rfl, rfl⟩

/-- Witness for the reset theorem at a concrete IndividualReset buffer in
an Executable state. -/
theorem c5_reset_individual_resettable_witness :
    execMultiShotBuffer.reset.isSome = true ∧
    ({ execMultiShotBuffer with state := State.initialState }).state =
      State.initialState ∧
    ({ execMultiShotBuffer with state := State.initialState }).resetFlag =
      ResetTag.individualReset :=
  ⟨(c5_reset_individual_resettable execMultiShotBuffer).1.mpr
      ⟨rfl, Or.inr (Or.inl ⟨.multiShot .unit, rfl⟩)⟩,
   ((c5_reset_individual_resettable execMultiShotBuffer).2 _ rfl).1,
   ((c5_reset_individual_resettable execMultiShotBuffer).2 _ rfl).2⟩

/-- C6: the usage-policy flag mapping equals the canonical table: OneShot
yields exactly ONE_TIME_SUBMIT, plain MultiShot yields the empty flag
set, and MultiShot of SimultaneousUse yields exactly SIMULTANEOUS_USE. -/
theorem c6_usage_flags_table :
    Usage.oneShot.flags = UsageFlags.ONE_TIME_SUBMIT ∧
    (Usage.multiShot .unit).flags = UsageFlags.empty ∧
    (Usage.multiShot .simultaneousUse).flags =
      UsageFlags.SIMULTANEOUS_USE ∧
    UsageFlags.ONE_TIME_SUBMIT = 1 ∧ UsageFlags.empty = 0 ∧
    UsageFlags.SIMULTANEOUS_USE = 4 :=
  ⟨rfl, rfl, rfl, rfl, rfl, rfl⟩

/-- C7: the Submit token produced by submit_once or submit carries the
family of the buffer that produced it, for every usage policy, and the
family of a token is the immutable field fixed at construction, untouched
by into_inner. -/
theorem c7_submit_token_family {B C : Type} [CommandBuffer B]
    (b : Buffer B C) :
    (∀ tok b', b.submit_once = some (tok, b') → tok.family = b.family) ∧
    (∀ tok b', b.submit = some (tok, b') → tok.family = b.family) ∧
    (∀ (S : Type) (raw : S) (fam : FamilyId),
      (Submit.mk raw fam).family = fam ∧
      (Submit.mk raw fam).into_inner = raw) := by
  refine ⟨?_, ?_, ?_⟩
  · intro tok b' h
    cases hs : b.state <;> cases hl : b.level <;>
      simp [Buffer.submit_once, hs, hl] at h
    case executableState.primaryLevel u =>
      cases u <;> simp at h
      rw [← h.1]
  · intro tok b' h
    cases hs : b.state <;> cases hl : b.level <;>
      simp [Buffer.submit, hs, hl] at h
    case executableState.primaryLevel u =>
      cases u <;> simp at h
      rw [← h.1]
  · intro S raw fam
    exact ⟨rfl, rfl⟩

/-- Witness for the token-family theorem at a concrete OneShot buffer of
family three. -/
theorem c7_submit_token_family_witness :
    (Submit.mk () (FamilyId.mk 3)).family = execOneShotBuffer.family :=
  (c7_submit_token_family execOneShotBuffer).1 (Submit.mk () ⟨3⟩)
    { execOneShotBuffer with
        state := .pendingState .invalidState } rfl

/-- C8: begin is offered exactly on buffers in InitialState at
PrimaryLevel, for every usage type implementing the Usage trait, and it
transitions the buffer to RecordingState of that usage at the same
PrimaryLevel; no begin is offered from any other state or from
SecondaryLevel. -/
theorem c8_begin_initial_primary_only {B C : Type} (b : Buffer B C)
    (u : Usage) :
    ((b.begin u).isSome = true ↔
      b.state = State.initialState ∧ b.level = Level.primaryLevel) ∧
    (∀ b', b.begin u = some b' →
      b'.state = State.recordingState u ∧
      b'.level = Level.primaryLevel ∧ b'.resetFlag = b.resetFlag) := by
  constructor
  · cases hs : b.state <;> cases hl : b.level <;>
      simp [Buffer.begin, hs, hl]
  · intro b' h
    cases hs : b.state <;> cases hl : b.level <;>
      simp [Buffer.begin, hs, hl] at h
    subst h
    exact ⟨rfl, rfl, rfl⟩

/-- Witness for the begin theorem at a concrete Initial Primary buffer
with the OneShot usage. -/
theorem c8_begin_initial_primary_only_witness :
    (initialPrimaryBuffer.begin .oneShot).isSome = true ∧
    ({ initialPrimaryBuffer with
        state := State.recordingState .oneShot }).state =
      State.recordingState .oneShot :=
  ⟨(c8_begin_initial_primary_only initialPrimaryBuffer .oneShot).1.mpr
      ⟨rfl, rfl⟩,
   ((c8_begin_initial_primary_only initialPrimaryBuffer .oneShot).2
      _ rfl).1⟩

/-- C9: the CommandBuffer impl for FrameBound forwards submission: the
submission payload of a frame-bound buffer is the inner buffer's payload
wrapped as a FrameBound bound to the same frame token. -/
theorem c9_framebound_submit_forwarding {F B : Type} [CommandBuffer B]
    (fb : FrameBound F B) :
    (CommandBuffer.submit fb
        : FrameBound F (CommandBuffer.Submit B)) =
      FrameBound.bind (CommandBuffer.submit fb.inner_ref) fb.frame ∧
    (CommandBuffer.submit fb
        : FrameBound F (CommandBuffer.Submit B)).frame = fb.frame ∧
    (CommandBuffer.submit fb
        : FrameBound F (CommandBuffer.Submit B)).inner =
      CommandBuffer.submit fb.inner :=
  ⟨rfl, rfl, rfl⟩

/-- C10: every Buffer value carries exactly the fields of the wrapper,
among them one leak sentinel and the owning family id, in every state
including Pending; no operation of the interface separates the sentinel
or the family id from the value; and every Image holds exactly one
sentinel inside its Escape-wrapped inner value alongside its MemoryBlock
and raw handle. -/
theorem c10_sentinel_and_family_carried {B C M I : Type}
    [CommandBuffer B] (b : Buffer B C) (u : Usage) (img : Image M I) :
    b = ⟨b.inner, b.capability, b.state, b.level, b.resetFlag, b.family,
      b.relevant⟩ ∧
    (∀ b', b.begin u = some b' →
      b'.family = b.family ∧ b'.relevant = b.relevant) ∧
    (∀ tok b', b.submit_once = some (tok, b') →
      b'.family = b.family ∧ b'.relevant = b.relevant) ∧
    (∀ tok b', b.submit = some (tok, b') →
      b'.family = b.family ∧ b'.relevant = b.relevant) ∧
    (∀ b', b.complete = some b' →
      b'.family = b.family ∧ b'.relevant = b.relevant) ∧
    (∀ b', b.reset = some b' →
      b'.family = b.family ∧ b'.relevant = b.relevant) ∧
    (∀ b', b.mark_reset = some b' →
      b'.family = b.family ∧ b'.relevant = b.relevant) ∧
    img.inner.value = ⟨img.inner.value.block, img.inner.value.raw,
      img.inner.value.relevant⟩ := by
  refine ⟨rfl, ?_, ?_, ?_, ?_, ?_, ?_, rfl⟩
  · intro b' h
    cases hs : b.state <;> cases hl : b.level <;>
      simp [Buffer.begin, hs, hl] at h
    subst h
    exact ⟨rfl, rfl⟩
  · intro tok b' h
    cases hs : b.state <;> cases hl : b.level <;>
      simp [Buffer.submit_once, hs, hl] at h
    case executableState.primaryLevel v =>
      cases v <;> simp at h
      rw [← h.2]
      exact ⟨rfl, rfl⟩
  · intro tok b' h
    cases hs : b.state <;> cases hl : b.level <;>
      simp [Buffer.submit, hs, hl] at h
    case executableState.primaryLevel v =>
      cases v <;> simp at h
      rw [← h.2]
      exact ⟨rfl, rfl⟩
  · intro b' h
    cases hs : b.state <;> simp [Buffer.complete, hs] at h
    subst h
    exact ⟨rfl, rfl⟩
  · intro b' h
    cases hf : b.resetFlag <;> cases hR : Resettable b.state <;>
      simp [Buffer.reset, hf, hR] at h
    subst h
    exact ⟨rfl, rfl⟩
  · intro b' h
    cases hf : b.resetFlag <;> cases hR : Resettable b.state <;>
      simp [Buffer.mark_reset, hf, hR] at h
    subst h
    exact ⟨rfl, rfl⟩

/-- Witness for the sentinel-and-family theorem at a concrete Pending
buffer completed into its follow state, and the concrete sample image. -/
theorem c10_sentinel_and_family_carried_witness :
    ({ pendingSimultaneousBuffer with
        state := State.executableState (.multiShot .simultaneousUse)
      }).family = pendingSimultaneousBuffer.family ∧
    ({ pendingSimultaneousBuffer with
        state := State.executableState (.multiShot .simultaneousUse)
      }).relevant = pendingSimultaneousBuffer.relevant ∧
    sampleImage.inner.value = ⟨sampleImage.inner.value.block,
      sampleImage.inner.value.raw, sampleImage.inner.value.relevant⟩ :=
  ⟨((c10_sentinel_and_family_carried pendingSimultaneousBuffer .oneShot
      sampleImage).2.2.2.2.1 _ rfl).1,
   ((c10_sentinel_and_family_carried pendingSimultaneousBuffer .oneShot
      sampleImage).2.2.2.2.1 _ rfl).2,
   (c10_sentinel_and_family_carried pendingSimultaneousBuffer .oneShot
      sampleImage).2.2.2.2.2.2.2⟩
